import Mathlib

/-!
Shallow embedding of the CollapseUpdater launcher (src/main.py) and proofs
about its release resolution, version-store pruning, download and handoff
behaviour.

The embedding mirrors the source:
- `get_latest_release_stable` / `get_latest_release_pre` embed
  `Updater.get_latest_release` for the two channels (stable hits the
  `releases/latest` endpoint, pre-release hits `releases` and scans for the
  first entry with the prerelease flag).
- `delete_old_releases` embeds `Updater.delete_old_releases`: glob over
  `CollapseLoader*`, delete every matching regular file other than the
  excluded name.
- `download_latest_release` embeds `Updater.download_latest_release`: it
  opens the destination under the final asset name and streams chunks into
  it; a transport failure mid-stream propagates as an exception with the
  partial file left in place.
- `Updater.main` embeds `Updater.main`: prune, presence check, conditional
  download, then handoff of `[filename] + sys.argv[1:]`.

The local directory is a list of named entries (regular file or not, with a
byte count for files); network interactions are parameters describing what
the remote side did.
-/

/-- One asset attached to a release, as returned by the registry. -/
structure Asset where
  name : String
  size : Nat
  browser_download_url : String
deriving DecidableEq, Repr

/-- One release object, as returned by the registry. -/
structure Release where
  tag_name : String
  prerelease : Bool
  assets : List Asset
deriving DecidableEq, Repr

/-- Outcome of `requests.get` on the registry endpoint: either the request
itself raised a `RequestException`, or a response with a status code and a
parsed JSON body arrived. -/
inductive FetchOutcome (α : Type) where
  | transportError
  | response (status : Nat) (body : α)

/-- The operator-visible reports `get_latest_release` can print. -/
inductive Report where
  | failedToFetch
  | rateLimitExceeded
  | fetchingPreRelease
  | noPreReleaseFound
deriving DecidableEq, Repr

/-- Status handling shared by both channels of `get_latest_release`:
`response.raise_for_status()` raises `HTTPError` (a `RequestException`,
caught by the generic handler) for any 4xx or 5xx status, and only then do
the `status_code == 429` and `status_code != 200` branches run.  Returns
the failure report printed, or `none` when control reaches the channel
body. -/
def processStatus (status : Nat) : Option Report :=
  if 400 ≤ status ∧ status < 600 then some Report.failedToFetch
  else if status = 429 then some Report.rateLimitExceeded
  else if status ≠ 200 then some Report.failedToFetch
  else none

/-- The `for release in response.json(): if release[...]` loop of the
pre-release channel: first list entry whose prerelease flag is set. -/
def find_prerelease : List Release → Option Release
  | [] => none
  | r :: rs => if r.prerelease then some r else find_prerelease rs

/-- `Updater.get_latest_release` on the stable channel
(`releases/latest`): on success the parsed body is returned unchanged
(`return response.json()`); `False` is embedded as `none`.  The second
component is the list of reports printed. -/
def get_latest_release_stable (resp : FetchOutcome Release) :
    Option Release × List Report :=
  match resp with
  | FetchOutcome.transportError => (none, [Report.failedToFetch])
  | FetchOutcome.response status body =>
    match processStatus status with
    | some rep => (none, [rep])
    | none => (some body, [])

/-- `Updater.get_latest_release` on the pre-release channel (`releases`):
prints the fetching notice, then returns the first entry whose prerelease
flag is set, or `False` (embedded as `none`) with the no-pre-release
report. -/
def get_latest_release_pre (resp : FetchOutcome (List Release)) :
    Option Release × List Report :=
  match resp with
  | FetchOutcome.transportError => (none, [Report.failedToFetch])
  | FetchOutcome.response status body =>
    match processStatus status with
    | some rep => (none, [rep])
    | none =>
      match find_prerelease body with
      | some r => (some r, [Report.fetchingPreRelease])
      | none => (none, [Report.fetchingPreRelease, Report.noPreReleaseFound])

/-- One entry of the working directory: a name, whether it is a regular
file (`os.path.isfile`), and for files the number of bytes stored. -/
structure Entry where
  name : String
  isFile : Bool
  bytes : Nat
deriving DecidableEq, Repr

/-- The glob pattern `CollapseLoader*`: names whose character sequence
starts with the literal `CollapseLoader`. -/
def releaseGlobMatch (name : String) : Bool :=
  "CollapseLoader".data.isPrefixOf name.data

/-- The deletion condition of `Updater.delete_old_releases`: the entry was
produced by `glob.glob("CollapseLoader*")`, its name differs from
`exclude_file` (a string never equals `None`), and `os.path.isfile`
holds. -/
def shouldDelete (exclude : Option String) (e : Entry) : Bool :=
  releaseGlobMatch e.name
    && (match exclude with
        | none => true
        | some k => !(e.name == k))
    && e.isFile

/-- `Updater.delete_old_releases`: remove every entry meeting the
deletion condition, keep everything else. -/
def delete_old_releases (exclude : Option String) (store : List Entry) :
    List Entry :=
  store.filter (fun e => !(shouldDelete exclude e))

/-- `os.path.exists`: some entry (file or not) carries the name. -/
def pathExists (store : List Entry) (name : String) : Bool :=
  store.any (fun e => e.name == name)

/-- `open(name, "wb")` followed by writing `n` bytes: creates (or
truncates) a regular file under `name`. -/
def writeFile (store : List Entry) (name : String) (n : Nat) : List Entry :=
  Entry.mk name true n :: store.filter (fun e => !(e.name == name))

/-- What the download connection did: `httpError` means
`raise_for_status` on the asset URL raised before the file was opened;
`interrupted n` means the stream died after `n` bytes were written;
`success n` means the full body of `n` bytes arrived. -/
inductive DownloadOutcome where
  | httpError
  | interrupted (n : Nat)
  | success (n : Nat)
deriving DecidableEq, Repr

/-- Unhandled Python exceptions that abort the run. -/
inductive Crash where
  | indexError
  | transferError
deriving DecidableEq, Repr

/-- Observable steps of a run, in order. -/
inductive Event where
  | prune (keepName : String)
  | existsCheck (name : String) (present : Bool)
  | download (name : String)
  | transfer (name : String) (bytes : Nat)
  | alreadyDownloaded
  | handoff (command : List String)
deriving DecidableEq, Repr

/-- Result of running a piece of the updater: final directory state, the
events it performed, and the exception that escaped, if any. -/
structure RunResult where
  store : List Entry
  events : List Event
  crash : Option Crash
deriving DecidableEq, Repr

/-- `Updater.download_latest_release`: no-op when resolution failed;
`release["assets"][0]` raises `IndexError` on an empty asset list; the
destination file is opened under the final asset name and holds whatever
bytes were streamed before the connection closed, also when the stream
failed mid-way (the `RequestException` then propagates). -/
def download_latest_release (latest : Option Release)
    (net : DownloadOutcome) (store : List Entry) : RunResult :=
  match latest with
  | none => RunResult.mk store [] none
  | some r =>
    match r.assets.head? with
    | none => RunResult.mk store [] (some Crash.indexError)
    | some a =>
      match net with
      | DownloadOutcome.httpError =>
          RunResult.mk store [Event.download a.name] (some Crash.transferError)
      | DownloadOutcome.interrupted n =>
          RunResult.mk (writeFile store a.name n)
            [Event.download a.name, Event.transfer a.name n]
            (some Crash.transferError)
      | DownloadOutcome.success n =>
          RunResult.mk (writeFile store a.name n)
            [Event.download a.name, Event.transfer a.name n]
            none

/-- `Updater.main`: when resolution failed nothing happens; otherwise the
target name is `assets[0]["name"]` (IndexError on an empty list), old
releases are pruned with the target excluded, the presence check decides
between downloading and reporting, and on a normal path the run hands off
to `" ".join([filename] + sys.argv[1:])`. -/
def Updater.main (latest : Option Release) (net : DownloadOutcome)
    (argvTail : List String) (store : List Entry) : RunResult :=
  match latest with
  | none => RunResult.mk store [] none
  | some r =>
    match r.assets.head? with
    | none => RunResult.mk store [] (some Crash.indexError)
    | some a =>
      let store1 := delete_old_releases (some a.name) store
      if pathExists store1 a.name then
        RunResult.mk store1
          [Event.prune a.name, Event.existsCheck a.name true,
           Event.alreadyDownloaded, Event.handoff (a.name :: argvTail)]
          none
      else
        let d := download_latest_release (some r) net store1
        match d.crash with
        | some c =>
            RunResult.mk d.store
              (Event.prune a.name :: Event.existsCheck a.name false :: d.events)
              (some c)
        | none =>
            RunResult.mk d.store
              ((Event.prune a.name :: Event.existsCheck a.name false :: d.events)
                ++ [Event.handoff (a.name :: argvTail)])
              none

/-- Recognises download events (each one is a network request). -/
def isDownloadEv : Event → Bool
  | Event.download _ => true
  | _ => false

/-- Recognises handoff events. -/
def isHandoffEv : Event → Bool
  | Event.handoff _ => true
  | _ => false

/-! ### Helper lemmas -/

theorem shouldDelete_of_name_eq (k : String) (e : Entry) (he : e.name = k) :
    shouldDelete (some k) e = false := by
  simp [shouldDelete, he]

theorem pathExists_delete_old (store : List Entry) (k : String) :
    pathExists (delete_old_releases (some k) store) k = pathExists store k := by
  induction store with
  | nil => rfl
  | cons e tl ih =>
    by_cases he : e.name = k
    · have h1 : shouldDelete (some k) e = false := shouldDelete_of_name_eq k e he
      simp [delete_old_releases, List.filter_cons, h1, pathExists, List.any_cons, he]
    · have hbe : (e.name == k) = false := by simpa using he
      by_cases h2 : shouldDelete (some k) e = true
      · simpa [delete_old_releases, List.filter_cons, h2, pathExists, List.any_cons, hbe]
          using ih
      · simp only [Bool.not_eq_true] at h2
        simpa [delete_old_releases, List.filter_cons, h2, pathExists, List.any_cons, hbe]
          using ih

theorem find_prerelease_eq_none_iff (rs : List Release) :
    find_prerelease rs = none ↔ ∀ r ∈ rs, r.prerelease = false := by
  induction rs with
  | nil => simp [find_prerelease]
  | cons a tl ih =>
    cases hp : a.prerelease with
    | true => simp [find_prerelease, hp]
    | false => simp [find_prerelease, hp, ih]

theorem find_prerelease_first (rs : List Release) (r : Release)
    (h : find_prerelease rs = some r) :
    r.prerelease = true ∧
      ∃ l1 l2, rs = l1 ++ r :: l2 ∧ ∀ x ∈ l1, x.prerelease = false := by
  induction rs with
  | nil => cases h
  | cons a tl ih =>
    cases hp : a.prerelease with
    | true =>
      rw [find_prerelease, hp] at h
      simp only [if_true] at h
      cases h
      exact ⟨hp, [], tl, rfl, by simp⟩
    | false =>
      rw [find_prerelease, hp] at h
      simp only [Bool.false_eq_true, if_false] at h
      obtain ⟨hpre, l1, l2, heq, hall⟩ := ih h
      refine ⟨hpre, a :: l1, l2, by simp [heq], ?_⟩
      intro x hx
      rcases List.mem_cons.mp hx with hx1 | hx2
      · rw [hx1]; exact hp
      · exact hall x hx2

theorem get_pre_200 (body : List Release) :
    get_latest_release_pre (FetchOutcome.response 200 body)
      = match find_prerelease body with
        | some r => (some r, [Report.fetchingPreRelease])
        | none => (none, [Report.fetchingPreRelease, Report.noPreReleaseFound]) := by
  rfl

theorem get_pre_200_fst (body : List Release) :
    (get_latest_release_pre (FetchOutcome.response 200 body)).1
      = find_prerelease body := by
  rw [get_pre_200]
  cases find_prerelease body <;> rfl

/-! ### Claim theorems -/

/-- Claim C10: `delete_old_releases` only ever removes regular files; every
directory entry that is not a regular file survives the prune untouched,
for any excluded name — the sublist of non-file entries is unchanged. -/
theorem C10_prune_keeps_nonfiles (store : List Entry) (exclude : Option String) :
    (delete_old_releases exclude store).filter (fun e => !e.isFile)
      = store.filter (fun e => !e.isFile) := by
  induction store with
  | nil => rfl
  | cons e tl ih =>
    by_cases hf : e.isFile
    · by_cases hd : shouldDelete exclude e = true
      · simpa [delete_old_releases, List.filter_cons, hd, hf] using ih
      · simp only [Bool.not_eq_true] at hd
        simpa [delete_old_releases, List.filter_cons, hd, hf] using ih
    · have hd : shouldDelete exclude e = false := by
        simp [shouldDelete, Bool.eq_false_iff.mpr hf]
      simp only [Bool.not_eq_true] at hf
      simpa [delete_old_releases, List.filter_cons, hd, hf] using ih

/-- Claim C6: on a newest-first release list, pre-release resolution
returns the first entry (in positional order) whose prerelease flag is
set, fails with the no-pre-release report exactly when no entry has the
flag, and on the spec scenario (a non-prerelease head followed by two
flagged entries tagged B then A) selects the one tagged B. -/
theorem C6_prerelease_first_match (rs : List Release) :
    (∀ r, (get_latest_release_pre (FetchOutcome.response 200 rs)).1 = some r →
      r.prerelease = true ∧
        ∃ l1 l2, rs = l1 ++ r :: l2 ∧ ∀ x ∈ l1, x.prerelease = false) ∧
    ((get_latest_release_pre (FetchOutcome.response 200 rs)).1 = none ↔
      ∀ r ∈ rs, r.prerelease = false) ∧
    ((∀ r ∈ rs, r.prerelease = false) →
      get_latest_release_pre (FetchOutcome.response 200 rs)
        = (none, [Report.fetchingPreRelease, Report.noPreReleaseFound])) ∧
    (get_latest_release_pre (FetchOutcome.response 200
        [Release.mk "newest" false [], Release.mk "B" true [],
         Release.mk "A" true []])).1
      = some (Release.mk "B" true []) := by
  refine ⟨?_, ?_, ?_, ?_⟩
  · intro r h
    rw [get_pre_200_fst] at h
    exact find_prerelease_first rs r h
  · rw [get_pre_200_fst]
    exact find_prerelease_eq_none_iff rs
  · intro hall
    rw [get_pre_200]
    rw [(find_prerelease_eq_none_iff rs).mpr hall]
  · rw [get_pre_200_fst]
    rfl

/-- Claim C4 (code bug): the `status_code == 429` branch of
`get_latest_release` is unreachable because `raise_for_status()` raises on
every 4xx/5xx status first and the generic handler catches it, so an HTTP
429 response yields the generic failed-to-fetch report on both channels,
and no status code at all can produce the rate-limit report. -/
theorem C4_ratelimit_branch_dead :
    (∀ r : Release, get_latest_release_stable (FetchOutcome.response 429 r)
        = (none, [Report.failedToFetch])) ∧
    (∀ rs : List Release, get_latest_release_pre (FetchOutcome.response 429 rs)
        = (none, [Report.failedToFetch])) ∧
    (∀ status : Nat, processStatus status ≠ some Report.rateLimitExceeded) := by
  refine ⟨fun r => rfl, fun rs => rfl, fun status => ?_⟩
  by_cases h1 : 400 ≤ status ∧ status < 600
  · simp [processStatus, h1]
  · by_cases h2 : status = 429
    · exact absurd ⟨by omega, by omega⟩ h1
    · by_cases h3 : status = 200
      · simp [processStatus, h1, h2, h3]
      · simp [processStatus, h1, h2, h3]

/-- Claim C1 counterexample: a stable-channel 200 response whose asset
list is empty is returned as a candidate (with zero assets) instead of
failing — resolution performs no asset-count check. -/
theorem C1_counterexample :
    (get_latest_release_stable (FetchOutcome.response 200
        (Release.mk "v1.0" false []))).1
      = some (Release.mk "v1.0" false []) ∧
    (Release.mk "v1.0" false []).assets = [] :=
  ⟨rfl, rfl⟩

/-- Claim C1 (amended): stable-channel resolution returns the response
body unchanged with no asset-count check, so a candidate with an empty
asset list is produced; the launcher then aborts with an index error when
it extracts the asset name in `main` (no prune, download or handoff
happens), rather than failing with a typed NoAssetAvailable. -/
theorem C1_amended_no_asset_check (r : Release) (h : r.assets = [])
    (net : DownloadOutcome) (argv : List String) (store : List Entry) :
    get_latest_release_stable (FetchOutcome.response 200 r) = (some r, []) ∧
    (Updater.main (some r) net argv store).crash = some Crash.indexError ∧
    (Updater.main (some r) net argv store).events = [] := by
  refine ⟨rfl, ?_, ?_⟩ <;> simp [Updater.main, h]

/-- Witness for the amended C1 at a concrete empty-asset release. -/
theorem C1_amended_witness :
    get_latest_release_stable (FetchOutcome.response 200 (Release.mk "v1.0" false []))
        = (some (Release.mk "v1.0" false []), []) ∧
    (Updater.main (some (Release.mk "v1.0" false []))
        (DownloadOutcome.success 0) [] []).crash = some Crash.indexError ∧
    (Updater.main (some (Release.mk "v1.0" false []))
        (DownloadOutcome.success 0) [] []).events = [] :=
  C1_amended_no_asset_check (Release.mk "v1.0" false []) rfl
    (DownloadOutcome.success 0) [] []

theorem main_present (r : Release) (a : Asset) (rest : List Asset)
    (h : r.assets = a :: rest) (net : DownloadOutcome) (argv : List String)
    (store : List Entry)
    (hp : pathExists (delete_old_releases (some a.name) store) a.name = true) :
    Updater.main (some r) net argv store
      = RunResult.mk (delete_old_releases (some a.name) store)
          [Event.prune a.name, Event.existsCheck a.name true,
           Event.alreadyDownloaded, Event.handoff (a.name :: argv)] none := by
  simp [Updater.main, h, hp]

theorem main_absent_httpError (r : Release) (a : Asset) (rest : List Asset)
    (h : r.assets = a :: rest) (argv : List String) (store : List Entry)
    (hp : pathExists (delete_old_releases (some a.name) store) a.name = false) :
    Updater.main (some r) DownloadOutcome.httpError argv store
      = RunResult.mk (delete_old_releases (some a.name) store)
          [Event.prune a.name, Event.existsCheck a.name false,
           Event.download a.name] (some Crash.transferError) := by
  simp [Updater.main, download_latest_release, h, hp]

theorem main_absent_interrupted (r : Release) (a : Asset) (rest : List Asset)
    (h : r.assets = a :: rest) (n : Nat) (argv : List String)
    (store : List Entry)
    (hp : pathExists (delete_old_releases (some a.name) store) a.name = false) :
    Updater.main (some r) (DownloadOutcome.interrupted n) argv store
      = RunResult.mk (writeFile (delete_old_releases (some a.name) store) a.name n)
          [Event.prune a.name, Event.existsCheck a.name false,
           Event.download a.name, Event.transfer a.name n]
          (some Crash.transferError) := by
  simp [Updater.main, download_latest_release, h, hp]

theorem main_absent_success (r : Release) (a : Asset) (rest : List Asset)
    (h : r.assets = a :: rest) (n : Nat) (argv : List String)
    (store : List Entry)
    (hp : pathExists (delete_old_releases (some a.name) store) a.name = false) :
    Updater.main (some r) (DownloadOutcome.success n) argv store
      = RunResult.mk (writeFile (delete_old_releases (some a.name) store) a.name n)
          [Event.prune a.name, Event.existsCheck a.name false,
           Event.download a.name, Event.transfer a.name n,
           Event.handoff (a.name :: argv)] none := by
  simp [Updater.main, download_latest_release, h, hp]

/-- Claim C7: in every run where resolution produced a candidate with an
asset, pruning old releases is the very first step of `main`, followed
immediately by the presence check — so stale versions are removed before
the check and before any download, regardless of whether the target is
already present. -/
theorem C7_prune_before_check (r : Release) (a : Asset) (rest : List Asset)
    (h : r.assets = a :: rest) (net : DownloadOutcome) (argv : List String)
    (store : List Entry) :
    ∃ tail, (Updater.main (some r) net argv store).events
      = Event.prune a.name
          :: Event.existsCheck a.name (pathExists store a.name) :: tail := by
  by_cases hp : pathExists (delete_old_releases (some a.name) store) a.name = true
  · have hp' : pathExists store a.name = true := by
      rw [← pathExists_delete_old store a.name]; exact hp
    rw [main_present r a rest h net argv store hp, hp']
    exact ⟨_, rfl⟩
  · simp only [Bool.not_eq_true] at hp
    have hp' : pathExists store a.name = false := by
      rw [← pathExists_delete_old store a.name]; exact hp
    rw [hp']
    cases net with
    | httpError =>
      rw [main_absent_httpError r a rest h argv store hp]
      exact ⟨_, rfl⟩
    | interrupted n =>
      rw [main_absent_interrupted r a rest h n argv store hp]
      exact ⟨_, rfl⟩
    | success n =>
      rw [main_absent_success r a rest h n argv store hp]
      exact ⟨_, rfl⟩

/-- Witness for C7 at a concrete run whose target is already present. -/
theorem C7_prune_before_check_witness :
    ∃ tail, (Updater.main (some (Release.mk "v1" false
        [Asset.mk "CollapseLoader.exe" 1000 "u"]))
      (DownloadOutcome.success 1000) ["--play"]
      [Entry.mk "CollapseLoader-old.exe" true 5,
       Entry.mk "CollapseLoader.exe" true 1000]).events
      = Event.prune "CollapseLoader.exe"
          :: Event.existsCheck "CollapseLoader.exe"
               (pathExists [Entry.mk "CollapseLoader-old.exe" true 5,
                            Entry.mk "CollapseLoader.exe" true 1000]
                 "CollapseLoader.exe")
          :: tail :=
  C7_prune_before_check
    (Release.mk "v1" false [Asset.mk "CollapseLoader.exe" 1000 "u"])
    (Asset.mk "CollapseLoader.exe" 1000 "u") [] rfl
    (DownloadOutcome.success 1000) ["--play"]
    [Entry.mk "CollapseLoader-old.exe" true 5,
     Entry.mk "CollapseLoader.exe" true 1000]

/-- Claim C8: in every run with a resolved candidate carrying an asset, a
download network request happens exactly when no entry with the target
name exists; when the target exists, the run reports that the latest
version is already downloaded and goes straight to handoff with no
transfer. -/
theorem C8_download_iff_absent (r : Release) (a : Asset) (rest : List Asset)
    (h : r.assets = a :: rest) (net : DownloadOutcome) (argv : List String)
    (store : List Entry) :
    ((Updater.main (some r) net argv store).events.any isDownloadEv
        = !(pathExists store a.name)) ∧
    (pathExists store a.name = true →
      (Updater.main (some r) net argv store).events
        = [Event.prune a.name, Event.existsCheck a.name true,
           Event.alreadyDownloaded, Event.handoff (a.name :: argv)]) := by
  by_cases hp : pathExists store a.name = true
  · have hp1 : pathExists (delete_old_releases (some a.name) store) a.name = true := by
      rw [pathExists_delete_old store a.name]; exact hp
    rw [main_present r a rest h net argv store hp1, hp]
    exact ⟨rfl, fun _ => rfl⟩
  · simp only [Bool.not_eq_true] at hp
    have hp1 : pathExists (delete_old_releases (some a.name) store) a.name = false := by
      rw [pathExists_delete_old store a.name]; exact hp
    rw [hp]
    refine ⟨?_, fun hc => absurd hc (by simp [hp])⟩
    cases net with
    | httpError => rw [main_absent_httpError r a rest h argv store hp1]; rfl
    | interrupted n => rw [main_absent_interrupted r a rest h n argv store hp1]; rfl
    | success n => rw [main_absent_success r a rest h n argv store hp1]; rfl

/-- Witness for C8 at a concrete run whose target is already present. -/
theorem C8_download_iff_absent_witness :
    ((Updater.main (some (Release.mk "v1" false
          [Asset.mk "CollapseLoader.exe" 1000 "u"]))
        (DownloadOutcome.success 4) ["-x"]
        [Entry.mk "CollapseLoader.exe" true 4]).events.any isDownloadEv
      = !(pathExists [Entry.mk "CollapseLoader.exe" true 4] "CollapseLoader.exe")) ∧
    (pathExists [Entry.mk "CollapseLoader.exe" true 4] "CollapseLoader.exe" = true →
      (Updater.main (some (Release.mk "v1" false
          [Asset.mk "CollapseLoader.exe" 1000 "u"]))
        (DownloadOutcome.success 4) ["-x"]
        [Entry.mk "CollapseLoader.exe" true 4]).events
        = [Event.prune "CollapseLoader.exe",
           Event.existsCheck "CollapseLoader.exe" true,
           Event.alreadyDownloaded,
           Event.handoff ("CollapseLoader.exe" :: ["-x"])]) :=
  C8_download_iff_absent
    (Release.mk "v1" false [Asset.mk "CollapseLoader.exe" 1000 "u"])
    (Asset.mk "CollapseLoader.exe" 1000 "u") [] rfl
    (DownloadOutcome.success 4) ["-x"] [Entry.mk "CollapseLoader.exe" true 4]

/-- Claim C2 counterexample: a download interrupted mid-stream crashes the
run but leaves the partial file under the target name — afterwards the
`exists(targetName)` check returns true, contradicting the claim that no
file exists under the target name after a failed download. -/
theorem C2_counterexample :
    (Updater.main (some (Release.mk "v1" false
        [Asset.mk "CollapseLoader.exe" 1000 "u"]))
      (DownloadOutcome.interrupted 500) [] []).crash = some Crash.transferError ∧
    pathExists (Updater.main (some (Release.mk "v1" false
        [Asset.mk "CollapseLoader.exe" 1000 "u"]))
      (DownloadOutcome.interrupted 500) [] []).store "CollapseLoader.exe" = true := by
  decide

/-- Claim C2 (amended): a mid-stream transport failure leaves the partial
output under the final target name (exactly the bytes streamed so far), so
a later `exists(targetName)` check returns true; the interrupted run
itself crashes with the propagated transfer exception and performs no
handoff. -/
theorem C2_amended_partial_file_remains (r : Release) (a : Asset)
    (rest : List Asset) (h : r.assets = a :: rest) (n : Nat)
    (argv : List String) (store : List Entry)
    (hs : pathExists store a.name = false) :
    (Updater.main (some r) (DownloadOutcome.interrupted n) argv store).crash
        = some Crash.transferError ∧
    pathExists (Updater.main (some r) (DownloadOutcome.interrupted n) argv store).store
        a.name = true ∧
    Entry.mk a.name true n
        ∈ (Updater.main (some r) (DownloadOutcome.interrupted n) argv store).store ∧
    (Updater.main (some r) (DownloadOutcome.interrupted n) argv store).events.any
        isHandoffEv = false := by
  have hp1 : pathExists (delete_old_releases (some a.name) store) a.name = false := by
    rw [pathExists_delete_old store a.name]; exact hs
  rw [main_absent_interrupted r a rest h n argv store hp1]
  refine ⟨rfl, ?_, ?_, rfl⟩
  · simp [pathExists, writeFile]
  · simp [writeFile]

/-- Witness for the amended C2 at a concrete interrupted download. -/
theorem C2_amended_witness :
    (Updater.main (some (Release.mk "v1" false
        [Asset.mk "CollapseLoader.exe" 1000 "u"]))
      (DownloadOutcome.interrupted 500) [] []).crash = some Crash.transferError ∧
    pathExists (Updater.main (some (Release.mk "v1" false
        [Asset.mk "CollapseLoader.exe" 1000 "u"]))
      (DownloadOutcome.interrupted 500) [] []).store "CollapseLoader.exe" = true ∧
    Entry.mk "CollapseLoader.exe" true 500
        ∈ (Updater.main (some (Release.mk "v1" false
            [Asset.mk "CollapseLoader.exe" 1000 "u"]))
          (DownloadOutcome.interrupted 500) [] []).store ∧
    (Updater.main (some (Release.mk "v1" false
        [Asset.mk "CollapseLoader.exe" 1000 "u"]))
      (DownloadOutcome.interrupted 500) [] []).events.any isHandoffEv = false :=
  C2_amended_partial_file_remains
    (Release.mk "v1" false [Asset.mk "CollapseLoader.exe" 1000 "u"])
    (Asset.mk "CollapseLoader.exe" 1000 "u") [] rfl 500 [] [] rfl

/-- Claim C3 counterexample: the handoff forwards the received arguments
with the launcher-private `--prelease` flag still present; the vector the
claim demands (the flag removed) is never handed off. -/
theorem C3_counterexample :
    Event.handoff ["CollapseLoader.exe", "--prelease", "--play"]
        ∈ (Updater.main (some (Release.mk "v1" false
            [Asset.mk "CollapseLoader.exe" 1000 "u"]))
          (DownloadOutcome.success 800) ["--prelease", "--play"] []).events ∧
    Event.handoff ["CollapseLoader.exe", "--play"]
        ∉ (Updater.main (some (Release.mk "v1" false
            [Asset.mk "CollapseLoader.exe" 1000 "u"]))
          (DownloadOutcome.success 800) ["--prelease", "--play"] []).events := by
  decide

/-- Claim C3 (amended): every handoff passes the argument vector the
launcher itself received verbatim and in order, prefixed with the target
file name and with nothing removed — the launcher-private `--prelease`
flag included (the vector is then joined with spaces into one shell
command line). -/
theorem C3_amended_forward_verbatim (r : Release) (a : Asset)
    (rest : List Asset) (h : r.assets = a :: rest) (net : DownloadOutcome)
    (argv : List String) (store : List Entry) (cmd : List String)
    (hc : Event.handoff cmd ∈ (Updater.main (some r) net argv store).events) :
    cmd = a.name :: argv := by
  by_cases hp : pathExists (delete_old_releases (some a.name) store) a.name = true
  · rw [main_present r a rest h net argv store hp] at hc
    simpa using hc
  · simp only [Bool.not_eq_true] at hp
    cases net with
    | httpError =>
      rw [main_absent_httpError r a rest h argv store hp] at hc
      simp at hc
    | interrupted n =>
      rw [main_absent_interrupted r a rest h n argv store hp] at hc
      simp at hc
    | success n =>
      rw [main_absent_success r a rest h n argv store hp] at hc
      simpa using hc

/-- Witness for the amended C3 at a concrete run that reaches handoff. -/
theorem C3_amended_witness :
    (["CollapseLoader.exe", "--prelease"] : List String)
      = "CollapseLoader.exe" :: ["--prelease"] :=
  C3_amended_forward_verbatim
    (Release.mk "v1" false [Asset.mk "CollapseLoader.exe" 1000 "u"])
    (Asset.mk "CollapseLoader.exe" 1000 "u") [] rfl
    (DownloadOutcome.success 9) ["--prelease"]
    [Entry.mk "CollapseLoader.exe" true 9]
    ["CollapseLoader.exe", "--prelease"]
    (by decide)

theorem mem_delete_old (exclude : Option String) (store : List Entry) (e : Entry) :
    e ∈ delete_old_releases exclude store
      ↔ e ∈ store ∧ shouldDelete exclude e = false := by
  simp [delete_old_releases, List.mem_filter]

theorem delete_old_cons (exclude : Option String) (e : Entry) (tl : List Entry)
    (he : shouldDelete exclude e = false) :
    delete_old_releases exclude (e :: tl) = e :: delete_old_releases exclude tl := by
  simp [delete_old_releases, List.filter_cons, he]

theorem length_le_one_of_const_name (l : List Entry) (k : String)
    (hnd : (l.map Entry.name).Nodup) (hall : ∀ e ∈ l, e.name = k) :
    l.length ≤ 1 := by
  cases l with
  | nil => simp
  | cons x tl =>
    cases tl with
    | nil => simp
    | cons y tl2 =>
      exfalso
      have hx : x.name = k := hall x (List.mem_cons_self x _)
      have hy : y.name = k := hall y (List.mem_cons_of_mem x (List.mem_cons_self y _))
      simp only [List.map_cons, List.nodup_cons, List.mem_cons, not_or] at hnd
      exact hnd.1.1 (hx.trans hy.symm)

/-- Claim C5: for any directory state (distinct entry names) and any kept
name, after `delete_old_releases` at most one regular file matching the
`CollapseLoader*` naming convention remains, and every entry carrying the
kept name that existed before the call still exists after it. -/
theorem C5_prune_invariant (store : List Entry) (keep : String)
    (hnd : (store.map Entry.name).Nodup) :
    ((delete_old_releases (some keep) store).filter
        (fun e => releaseGlobMatch e.name && e.isFile)).length ≤ 1 ∧
    ∀ e ∈ store, e.name = keep → e ∈ delete_old_releases (some keep) store := by
  constructor
  · have hname : ∀ e ∈ (delete_old_releases (some keep) store).filter
        (fun e => releaseGlobMatch e.name && e.isFile), e.name = keep := by
      intro e he
      rw [List.mem_filter] at he
      obtain ⟨he1, he2⟩ := he
      rw [mem_delete_old] at he1
      obtain ⟨_, hsd⟩ := he1
      have hgf : releaseGlobMatch e.name = true ∧ e.isFile = true := by
        simpa using he2
      by_contra hne
      have hne' : (e.name == keep) = false := by
        simpa using hne
      have : shouldDelete (some keep) e = true := by
        simp [shouldDelete, hgf.1, hgf.2, hne']
      rw [this] at hsd
      cases hsd
    have hsubl : ((delete_old_releases (some keep) store).filter
        (fun e => releaseGlobMatch e.name && e.isFile)).Sublist store :=
      (List.filter_sublist _).trans (List.filter_sublist _)
    have hndl : (((delete_old_releases (some keep) store).filter
        (fun e => releaseGlobMatch e.name && e.isFile)).map Entry.name).Nodup :=
      List.Nodup.sublist (hsubl.map Entry.name) hnd
    exact length_le_one_of_const_name _ keep hndl hname
  · intro e he hk
    rw [mem_delete_old]
    exact ⟨he, shouldDelete_of_name_eq keep e hk⟩

/-- Witness for C5 on a store of three distinct files, two matching the
naming convention and one being the kept name. -/
theorem C5_prune_invariant_witness :
    ((delete_old_releases (some "X")
        [Entry.mk "CollapseLoader-1.exe" true 1,
         Entry.mk "CollapseLoader-2.exe" true 2,
         Entry.mk "X" true 3]).filter
        (fun e => releaseGlobMatch e.name && e.isFile)).length ≤ 1 ∧
    ∀ e ∈ [Entry.mk "CollapseLoader-1.exe" true 1,
           Entry.mk "CollapseLoader-2.exe" true 2,
           Entry.mk "X" true 3],
      e.name = "X" →
        e ∈ delete_old_releases (some "X")
          [Entry.mk "CollapseLoader-1.exe" true 1,
           Entry.mk "CollapseLoader-2.exe" true 2,
           Entry.mk "X" true 3] :=
  C5_prune_invariant
    [Entry.mk "CollapseLoader-1.exe" true 1,
     Entry.mk "CollapseLoader-2.exe" true 2,
     Entry.mk "X" true 3] "X" (by decide)

/-- Claim C9: with the same resolved candidate twice, where the first run
downloaded the absent target successfully, the second run performs no
download network request, and after it the store holds exactly one entry
matching the `CollapseLoader*` naming convention: the downloaded target
file. -/
theorem C9_second_run_idempotent (r : Release) (a : Asset) (rest : List Asset)
    (h : r.assets = a :: rest) (hm : releaseGlobMatch a.name = true)
    (store : List Entry) (hs : pathExists store a.name = false)
    (n : Nat) (net2 : DownloadOutcome) (argv1 argv2 : List String) :
    ((Updater.main (some r) net2 argv2
        (Updater.main (some r) (DownloadOutcome.success n) argv1 store).store).events.any
      isDownloadEv = false) ∧
    ((Updater.main (some r) net2 argv2
        (Updater.main (some r) (DownloadOutcome.success n) argv1 store).store).store.filter
      (fun e => releaseGlobMatch e.name && e.isFile)) = [Entry.mk a.name true n] := by
  have hp1 : pathExists (delete_old_releases (some a.name) store) a.name = false := by
    rw [pathExists_delete_old store a.name]; exact hs
  rw [main_absent_success r a rest h n argv1 store hp1]
  have hex : pathExists
      (writeFile (delete_old_releases (some a.name) store) a.name n) a.name = true := by
    simp [writeFile, pathExists]
  have hp2 : pathExists (delete_old_releases (some a.name)
      (writeFile (delete_old_releases (some a.name) store) a.name n)) a.name = true := by
    rw [pathExists_delete_old]; exact hex
  rw [main_present r a rest h net2 argv2 _ hp2]
  refine ⟨rfl, ?_⟩
  have hsd0 : shouldDelete (some a.name) (Entry.mk a.name true n) = false :=
    shouldDelete_of_name_eq a.name (Entry.mk a.name true n) rfl
  have htail : ∀ e ∈ delete_old_releases (some a.name)
      ((delete_old_releases (some a.name) store).filter
        (fun e => !(e.name == a.name))),
      ¬((releaseGlobMatch e.name && e.isFile) = true) := by
    intro e he hPe
    rw [mem_delete_old] at he
    obtain ⟨he1, hsd⟩ := he
    rw [List.mem_filter] at he1
    obtain ⟨_, hne⟩ := he1
    have hgf : releaseGlobMatch e.name = true ∧ e.isFile = true := by
      simpa using hPe
    have hne' : (e.name == a.name) = false := by
      simpa using hne
    have : shouldDelete (some a.name) e = true := by
      simp [shouldDelete, hgf.1, hgf.2, hne']
    rw [this] at hsd
    cases hsd
  have hPhead : (releaseGlobMatch (Entry.mk a.name true n).name
      && (Entry.mk a.name true n).isFile) = true := by simp [hm]
  simp only [writeFile]
  rw [delete_old_cons (some a.name) _ _ hsd0]
  rw [List.filter_cons, if_pos hPhead]
  rw [List.filter_eq_nil_iff.mpr htail]

/-- Witness for C9 at a concrete first-download-then-rerun scenario. -/
theorem C9_second_run_idempotent_witness :
    ((Updater.main (some (Release.mk "v2" false
          [Asset.mk "CollapseLoader-2.exe" 1000 "u"]))
        (DownloadOutcome.success 7) ["-y"]
        (Updater.main (some (Release.mk "v2" false
            [Asset.mk "CollapseLoader-2.exe" 1000 "u"]))
          (DownloadOutcome.success 1000) ["-y"]
          [Entry.mk "CollapseLoader-1.exe" true 5]).store).events.any
      isDownloadEv = false) ∧
    ((Updater.main (some (Release.mk "v2" false
          [Asset.mk "CollapseLoader-2.exe" 1000 "u"]))
        (DownloadOutcome.success 7) ["-y"]
        (Updater.main (some (Release.mk "v2" false
            [Asset.mk "CollapseLoader-2.exe" 1000 "u"]))
          (DownloadOutcome.success 1000) ["-y"]
          [Entry.mk "CollapseLoader-1.exe" true 5]).store).store.filter
      (fun e => releaseGlobMatch e.name && e.isFile))
      = [Entry.mk "CollapseLoader-2.exe" true 1000] :=
  C9_second_run_idempotent
    (Release.mk "v2" false [Asset.mk "CollapseLoader-2.exe" 1000 "u"])
    (Asset.mk "CollapseLoader-2.exe" 1000 "u") [] rfl (by decide)
    [Entry.mk "CollapseLoader-1.exe" true 5] (by decide) 1000
    (DownloadOutcome.success 7) ["-y"] ["-y"]
